import Mathlib

/-!
Shallow embedding of the runtime behavior of the react-express-docker
repository: the Express API handler (`server/index.js`), the client
fetch/render cycle (`client/src/App.jsx`), and the two proxy rule tables
(`client/nginx.conf` for production, `client/vite.config.js` for dev).
-/

/-- JavaScript values as far as this program manipulates them: the JSON
payloads exchanged on the wire and the client's `message` state.  `undef`
models JS `undefined`, which is what property access on an object lacking
the key yields (`data.message` when the body has no `message` field). -/
inductive JsVal where
  | undef : JsVal
  | str : String → JsVal
  | obj : List (String × JsVal) → JsVal
deriving Repr

/-- Field lookup in a JS object literal, first binding wins; a missing key
yields `undefined` exactly as JS property access does. -/
def lookupField : List (String × JsVal) → String → JsVal
  | [], _ => JsVal.undef
  | (k, v) :: rest, key => if k = key then v else lookupField rest key

/-- JS property access `v.key`: yields the field's value on an object that
has the key, and `undefined` otherwise (including on non-objects). -/
def getProp : JsVal → String → JsVal
  | JsVal.obj fields, key => lookupField fields key
  | _, _ => JsVal.undef

/-- Whether an object value carries the given key at all. -/
def hasKey : List (String × JsVal) → String → Bool
  | [], _ => false
  | (k, _) :: rest, key => k = key || hasKey rest key

/-- Whether a JS value is an object containing the given field. -/
def hasField : JsVal → String → Bool
  | JsVal.obj fields, key => hasKey fields key
  | _, _ => false

/-- JSON string escaping as performed by `JSON.stringify` for the
characters that can occur here (quote and backslash). -/
def escapeChar : Char → List Char
  | '"' => ['\\', '"']
  | '\\' => ['\\', '\\']
  | c => [c]

/-- Escape every character of a string for JSON output. -/
def escapeString (s : String) : String := String.mk (s.data.flatMap escapeChar)

mutual
/-- Serialization of a JS value to the bytes `res.json` puts on the wire
(`JSON.stringify`).  `undefined` never occurs in a payload this server
sends, so its serialization is irrelevant; we map it to the empty string. -/
def jsonSerialize : JsVal → String
  | JsVal.undef => ""
  | JsVal.str s => "\"" ++ escapeString s ++ "\""
  | JsVal.obj fields => "\x7b" ++ String.intercalate "," (serializeFields fields) ++ "\x7d"

/-- Serialize each `"key":value` pair of an object body in order. -/
def serializeFields : List (String × JsVal) → List String
  | [] => []
  | (k, v) :: rest => ("\"" ++ escapeString k ++ "\":" ++ jsonSerialize v) :: serializeFields rest
end

/-- HTTP request methods that can reach the Express router. -/
inductive Method where
  | GET | POST | PUT | DELETE
deriving Repr, DecidableEq

/-- An HTTP response as the Express handler produces it: status code,
content type, and a JSON body. -/
structure HttpResponse where
  status : Nat
  contentType : String
  body : JsVal
deriving Repr

/-- An incoming HTTP request: method, path, and headers (the handler in
`server/index.js` ignores the request object entirely). -/
structure Request where
  method : Method
  path : String
  headers : List (String × String)

/-- The fixed Message Payload of `server/index.js`:
`res.json({ message: "Hello from chaicode server" })`. -/
def apiMessageBody : JsVal :=
  JsVal.obj [("message", JsVal.str "Hello from chaicode server")]

/-- The Express app of `server/index.js`: a single route,
`app.get("/api/message", (req, res) => res.json({ message: ... }))`.
Any other method/path combination falls through to Express's default
404 handling, modelled as `none`. -/
def expressApp (req : Request) : Option HttpResponse :=
  match req.method, req.path with
  | Method.GET, "/api/message" =>
      some { status := 200, contentType := "application/json", body := apiMessageBody }
  | _, _ => none

/-- The exact bytes the server sends back for a request, when a route
matched: the `JSON.stringify` serialization of the response body. -/
def responseBytes (req : Request) : Option String :=
  (expressApp req).map (fun r => jsonSerialize r.body)

/-- Result of `res.json()` on the client: either a parsed JS value or a
parse error carrying the JS error's `message`. -/
inductive JsonResult where
  | ok : JsVal → JsonResult
  | fail : String → JsonResult
deriving Repr

/-- How the one `fetch("/api/message")` of `client/src/App.jsx` settles:
either the promise resolves with an HTTP response (status, and what
`res.json()` would yield on its body), or it rejects with a network
error whose `message` is the failure reason. -/
inductive FetchOutcome where
  | resolve : Nat → JsonResult → FetchOutcome
  | reject : String → FetchOutcome
deriving Repr

/-- Truth of `res.ok` per the fetch specification: status in 200-299. -/
def resOk (status : Nat) : Bool :=
  decide (200 ≤ status) && decide (status ≤ 299)

/-- The spec's Display State: Pending before the fetch settles, then
Loaded (carrying the JS value stored by `setMessage(data.message)`) or
Failed (carrying the error description string stored by the catch
handler). -/
inductive Display where
  | pending : Display
  | loaded : JsVal → Display
  | failed : String → Display
deriving Repr

/-- The promise chain of `client/src/App.jsx`, lines 289-342: the first
`.then` throws `HTTP error! status: ${res.status}` when `!res.ok` and
otherwise returns `res.json()`; the second `.then` runs
`setMessage(data.message)`; `.catch` runs
`setMessage("Failed to fetch message: " + err.message)`. -/
def displayAfter : FetchOutcome → Display
  | FetchOutcome.reject reason =>
      Display.failed ("Failed to fetch message: " ++ reason)
  | FetchOutcome.resolve status body =>
      if resOk status then
        match body with
        | JsonResult.ok data => Display.loaded (getProp data "message")
        | JsonResult.fail e => Display.failed ("Failed to fetch message: " ++ e)
      else
        Display.failed ("Failed to fetch message: " ++ ("HTTP error! status: " ++ toString status))

/-- Whether a display state is Loaded. -/
def isLoaded : Display → Bool
  | Display.loaded _ => true
  | _ => false

/-- Whether a display state is Failed. -/
def isFailed : Display → Bool
  | Display.failed _ => true
  | _ => false

/-- Whether an outcome is a resolution with successful status and a
parseable JSON body: exactly the cases whose promise chain reaches the
second `.then`. -/
def okParsed : FetchOutcome → Bool
  | FetchOutcome.resolve status (JsonResult.ok _) => resOk status
  | _ => false

/-- The JS string/value held in the component's `message` state for a
given display state: `"loading..."` initially (`useState("loading...")`),
`data.message` when loaded, the error description when failed. -/
def valueOfDisplay : Display → JsVal
  | Display.pending => JsVal.str "loading..."
  | Display.loaded v => v
  | Display.failed e => JsVal.str e

/-- How React interpolates the `message` state into the JSX text
`Message from backend: <strong>{message}</strong>`: a string renders as
itself and `undefined` renders as nothing.  An object child would throw
in React; `setMessage` is never called with an object here, so that case
is irrelevant and rendered as nothing. -/
def jsInterp : JsVal → String
  | JsVal.undef => ""
  | JsVal.str s => s
  | JsVal.obj _ => ""

/-- The visible text of the component for a given display state. -/
def renderApp (d : Display) : String :=
  "Message from backend: " ++ jsInterp (valueOfDisplay d)

/-- The component's per-mount state: the current display state and
whether the single fetch promise has already settled. -/
structure CompState where
  display : Display
  settled : Bool

/-- The state immediately after mount: `useState("loading...")` has run,
the effect has fired the fetch, and nothing has settled yet. -/
def mountState : CompState := { display := Display.pending, settled := false }

/-- The only transition the component admits: the effect runs once
(empty dependency array), so the single fetch promise settles at most
once, moving an unsettled state to the settled display determined by the
outcome.  No handler ever runs after the promise has settled. -/
inductive ClientStep : CompState → CompState → Prop
  | settle (s : CompState) (o : FetchOutcome) (h : s.settled = false) :
      ClientStep s { display := displayAfter o, settled := true }

/-- Prefix matching on request paths, as an nginx prefix location and the
vite proxy key perform it: character-wise prefix test on the path. -/
def locMatch (loc p : String) : Bool := loc.data.isPrefixOf p.data

/-- The upstream path produced by
`location /api/ { proxy_pass http://backend:4000/api/; }` in
`client/nginx.conf`: nginx replaces the matched location prefix `/api/`
by the URI part of the proxy_pass target, which is again `/api/`. -/
def rewriteApi (p : String) : String :=
  String.mk ("/api/".data ++ p.data.drop "/api/".data.length)

/-- What the edge router decides to do with a request path. -/
inductive RouterAction where
  | proxyApi : String → String → RouterAction
  | serveStatic : String → RouterAction
  | entryDoc : RouterAction
deriving Repr

/-- The on-disk static tree the router serves from, abstracted to the two
existence tests `try_files $uri $uri/ /index.html` performs. -/
structure StaticFs where
  fileExists : String → Bool
  dirExists : String → Bool

/-- The rule table of the server block in `client/nginx.conf`: the
longest-matching prefix location wins, so paths under `/api/` are proxied
to `http://backend:4000` with the prefix preserved, and everything else
goes through `location / { try_files $uri $uri/ /index.html; }` — the
file if it exists, the directory's index document if the directory
exists, and otherwise the entry document `/index.html`. -/
def nginxDecide (fs : StaticFs) (p : String) : RouterAction :=
  if locMatch "/api/" p then RouterAction.proxyApi "backend:4000" (rewriteApi p)
  else if fs.fileExists p then RouterAction.serveStatic p
  else if fs.dirExists p then RouterAction.serveStatic (p ++ "/index.html")
  else RouterAction.entryDoc

/-- The response the nginx edge router returns, given the upstream API
service (`up authority method path`) and the static file server: a
proxied request's response is returned verbatim, and the entry-document
fallback serves `/index.html`. -/
def nginxHandle (up : String → Method → String → HttpResponse)
    (serveFile : String → HttpResponse) (fs : StaticFs)
    (m : Method) (p : String) : HttpResponse :=
  match nginxDecide fs p with
  | RouterAction.proxyApi auth q => up auth m q
  | RouterAction.serveStatic f => serveFile f
  | RouterAction.entryDoc => serveFile "/index.html"

/-- The dev-server proxy of `client/vite.config.js`: requests whose path
starts with `/api` are forwarded unchanged to `http://localhost:4000`;
everything else is handled by the vite dev server itself. -/
def viteDevHandle (up : String → Method → String → HttpResponse)
    (devServe : Method → String → HttpResponse)
    (m : Method) (p : String) : HttpResponse :=
  if locMatch "/api" p then up "localhost:4000" m p else devServe m p

theorem isPrefixOf_append_self (l r : List Char) : l.isPrefixOf (l ++ r) = true := by
  induction l with
  | nil => simp
  | cons a t ih => simp [List.isPrefixOf_cons₂, ih]

theorem locMatch_append (loc rest : String) : locMatch loc (loc ++ rest) = true := by
  obtain ⟨l⟩ := loc
  obtain ⟨r⟩ := rest
  show l.isPrefixOf (l ++ r) = true
  exact isPrefixOf_append_self l r

theorem rewriteApi_api_append (rest : String) : rewriteApi ("/api/" ++ rest) = "/api/" ++ rest := by
  obtain ⟨r⟩ := rest
  rfl

theorem locMatch_api_dev (rest : String) : locMatch "/api" ("/api/" ++ rest) = true := by
  obtain ⟨r⟩ := rest
  rfl

theorem displayAfter_reject (reason : String) :
    displayAfter (FetchOutcome.reject reason) =
      Display.failed ("Failed to fetch message: " ++ reason) := rfl

theorem displayAfter_http_error (status : Nat) (body : JsonResult) (h : resOk status = false) :
    displayAfter (FetchOutcome.resolve status body) =
      Display.failed ("Failed to fetch message: " ++ ("HTTP error! status: " ++ toString status)) := by
  simp [displayAfter, h]

theorem displayAfter_ok (status : Nat) (data : JsVal) (h : resOk status = true) :
    displayAfter (FetchOutcome.resolve status (JsonResult.ok data)) =
      Display.loaded (getProp data "message") := by
  simp [displayAfter, h]

theorem isLoaded_displayAfter (o : FetchOutcome) : isLoaded (displayAfter o) = okParsed o := by
  cases o with
  | reject r => rfl
  | resolve s b =>
      cases h : resOk s with
      | false => cases b <;> simp [displayAfter, okParsed, isLoaded, h]
      | true => cases b <;> simp [displayAfter, okParsed, isLoaded, h]

theorem displayAfter_ne_pending (o : FetchOutcome) : displayAfter o ≠ Display.pending := by
  cases o with
  | reject r => simp [displayAfter]
  | resolve s b =>
      cases h : resOk s with
      | false => simp [displayAfter, h]
      | true => cases b <;> simp [displayAfter, h]

theorem lookupField_of_not_hasKey (fields : List (String × JsVal)) (key : String)
    (h : hasKey fields key = false) : lookupField fields key = JsVal.undef := by
  induction fields with
  | nil => rfl
  | cons kv rest ih =>
      obtain ⟨k, v⟩ := kv
      simp [hasKey] at h
      simp [lookupField, h.1, ih h.2]

theorem getProp_of_not_hasField (v : JsVal) (key : String) (h : hasField v key = false) :
    getProp v key = JsVal.undef := by
  cases v with
  | undef => rfl
  | str s => rfl
  | obj fields => exact lookupField_of_not_hasKey fields key h

/-- A static tree with no files and no directories, for concrete router
test cases. -/
def emptyFs : StaticFs := { fileExists := fun _ => false, dirExists := fun _ => false }

/-- A stub upstream API service used in concrete router test cases: the
response records which authority and path were reached. -/
def stubUp : String → Method → String → HttpResponse :=
  fun auth _ p => { status := 200, contentType := "upstream", body := JsVal.str (auth ++ p) }

/-- A stub static file server used in concrete router test cases: the
response records which file was served. -/
def stubServe : String → HttpResponse :=
  fun f => { status := 200, contentType := "text/html", body := JsVal.str f }

theorem displayAfter_terminal (o : FetchOutcome) :
    (isLoaded (displayAfter o) || isFailed (displayAfter o)) = true := by
  cases o with
  | reject r => rfl
  | resolve s b =>
      cases h : resOk s with
      | false => simp [displayAfter, h, isLoaded, isFailed]
      | true => cases b <;> simp [displayAfter, h, isLoaded, isFailed]

/-- C1: every GET request to the API path `/api/message` is answered by the
Express app with a success status and an application/json body that is
exactly the object with the single field `message` bound to the non-empty
fixed string "Hello from chaicode server". -/
theorem c1_api_message_contract (req : Request)
    (hm : req.method = Method.GET) (hp : req.path = "/api/message") :
    ∃ resp : HttpResponse, expressApp req = some resp ∧
      resOk resp.status = true ∧
      resp.contentType = "application/json" ∧
      resp.body = JsVal.obj [("message", JsVal.str "Hello from chaicode server")] ∧
      "Hello from chaicode server" ≠ "" := by
  have hresp : expressApp req =
      some { status := 200, contentType := "application/json", body := apiMessageBody } := by
    unfold expressApp
    rw [hm, hp]
    rfl
  exact ⟨_, hresp, rfl, rfl, rfl, by decide⟩

/-- Witness for C1 at a concrete GET request. -/
theorem c1_api_message_contract_witness :
    ({ method := Method.GET, path := "/api/message", headers := [] } : Request).method
        = Method.GET ∧
    ∃ resp : HttpResponse,
      expressApp { method := Method.GET, path := "/api/message", headers := [] } = some resp ∧
      resOk resp.status = true ∧
      resp.contentType = "application/json" ∧
      resp.body = JsVal.obj [("message", JsVal.str "Hello from chaicode server")] ∧
      "Hello from chaicode server" ≠ "" :=
  ⟨rfl, c1_api_message_contract _ rfl rfl⟩

/-- C2 as stated is false on the code: a resolved response with success
status 200 and the parseable JSON body given by the empty object — which
contains no `message` field — still puts the Display State in Loaded,
refuting the only-if direction of the claimed equivalence. -/
theorem c2_counterexample :
    isLoaded (displayAfter (FetchOutcome.resolve 200 (JsonResult.ok (JsVal.obj [])))) = true ∧
    hasField (JsVal.obj []) "message" = false :=
  ⟨rfl, rfl⟩

/-- C2 amended: the Display State becomes Loaded if and only if the one
outbound request resolves with a successful HTTP status and a parseable
JSON body — the presence of a `message` field is not required; the Loaded
value is the body's `message` property (JS `undefined` when absent), and
the simulated body with message "Hello from chaicode server" renders
exactly that string. -/
theorem c2_loaded_iff_ok_parsed :
    (∀ o : FetchOutcome, isLoaded (displayAfter o) = okParsed o) ∧
    (∀ (s : Nat) (v : JsVal), resOk s = true →
        displayAfter (FetchOutcome.resolve s (JsonResult.ok v)) =
          Display.loaded (getProp v "message")) ∧
    displayAfter (FetchOutcome.resolve 200 (JsonResult.ok apiMessageBody)) =
      Display.loaded (JsVal.str "Hello from chaicode server") ∧
    renderApp (Display.loaded (JsVal.str "Hello from chaicode server")) =
      "Message from backend: Hello from chaicode server" :=
  ⟨isLoaded_displayAfter, displayAfter_ok, rfl, rfl⟩

/-- Witness for C2 (amended) at a concrete successful response. -/
theorem c2_loaded_iff_ok_parsed_witness :
    resOk 200 = true ∧
    displayAfter (FetchOutcome.resolve 200 (JsonResult.ok (JsVal.obj [("message", JsVal.str "hi")]))) =
      Display.loaded (getProp (JsVal.obj [("message", JsVal.str "hi")]) "message") :=
  ⟨rfl, c2_loaded_iff_ok_parsed.2.1 200 (JsVal.obj [("message", JsVal.str "hi")]) rfl⟩

/-- C3: every resolution with a non-success HTTP status — whatever its
body — makes the Display State Failed and never Loaded, and every network
rejection makes it Failed with the error-indicating prefix followed by the
failure reason. -/
theorem c3_failure_transitions :
    (∀ (s : Nat) (b : JsonResult), resOk s = false →
        isFailed (displayAfter (FetchOutcome.resolve s b)) = true ∧
        isLoaded (displayAfter (FetchOutcome.resolve s b)) = false) ∧
    (∀ reason : String,
        displayAfter (FetchOutcome.reject reason) =
          Display.failed ("Failed to fetch message: " ++ reason)) := by
  constructor
  · intro s b h
    rw [displayAfter_http_error s b h]
    exact ⟨rfl, rfl⟩
  · exact displayAfter_reject

/-- Witness for C3 at status 500 and a connection-refused rejection. -/
theorem c3_failure_transitions_witness :
    resOk 500 = false ∧
    isFailed (displayAfter (FetchOutcome.resolve 500 (JsonResult.ok apiMessageBody))) = true ∧
    isLoaded (displayAfter (FetchOutcome.resolve 500 (JsonResult.ok apiMessageBody))) = false ∧
    displayAfter (FetchOutcome.reject "connection refused") =
      Display.failed ("Failed to fetch message: " ++ "connection refused") :=
  ⟨rfl, (c3_failure_transitions.1 500 (JsonResult.ok apiMessageBody) rfl).1,
    (c3_failure_transitions.1 500 (JsonResult.ok apiMessageBody) rfl).2,
    c3_failure_transitions.2 "connection refused"⟩

/-- C4: immediately after mount and before the fetch settles the Display
State is Pending, whose associated state string is the literal placeholder
"loading..." interpolated directly into the visible output. -/
theorem c4_initial_pending_render :
    mountState.display = Display.pending ∧
    mountState.settled = false ∧
    valueOfDisplay Display.pending = JsVal.str "loading..." ∧
    renderApp Display.pending = "Message from backend: loading..." :=
  ⟨rfl, rfl, rfl, rfl⟩

/-- C5: the per-mount state machine starts Pending and unsettled; its only
transition settles the single fetch, producing a terminal state that is
Loaded or Failed and never Pending; settled states admit no further
transition, so each mount reaches at most one terminal state and never
leaves it or returns to Pending. -/
theorem c5_single_settle_machine :
    mountState.display = Display.pending ∧
    mountState.settled = false ∧
    (∀ s t : CompState, ClientStep s t →
        s.settled = false ∧ t.settled = true ∧
        (isLoaded t.display || isFailed t.display) = true ∧ t.display ≠ Display.pending) ∧
    (∀ s t : CompState, s.settled = true → ¬ ClientStep s t) := by
  refine ⟨rfl, rfl, ?_, ?_⟩
  · intro s t h
    cases h with
    | settle o hs =>
        exact ⟨hs, rfl, displayAfter_terminal o, displayAfter_ne_pending o⟩
  · intro s t hs h
    cases h with
    | settle o hf => rw [hs] at hf; exact Bool.noConfusion hf

/-- Witness for C5: a concrete settle step from the mount state, and the
absence of any step out of a settled state. -/
theorem c5_single_settle_machine_witness :
    ClientStep mountState
      { display := displayAfter (FetchOutcome.reject "boom"), settled := true } ∧
    ({ display := displayAfter (FetchOutcome.reject "boom"), settled := true } : CompState).settled
        = true ∧
    ¬ ClientStep { display := Display.pending, settled := true } mountState :=
  ⟨ClientStep.settle mountState (FetchOutcome.reject "boom") rfl,
    (c5_single_settle_machine.2.2.1 mountState _
      (ClientStep.settle mountState (FetchOutcome.reject "boom") rfl)).2.1,
    c5_single_settle_machine.2.2.2 _ mountState rfl⟩

/-- C6: a request whose path carries the API prefix is forwarded by the
production nginx rule table to the API service `backend:4000` with the
same method and the same path (prefix preserved, suffix unchanged), and
its response is returned verbatim; the dev vite proxy likewise forwards
such requests unchanged to `localhost:4000`. -/
theorem c6_api_forwarded_verbatim
    (up : String → Method → String → HttpResponse)
    (serveFile : String → HttpResponse) (devServe : Method → String → HttpResponse)
    (fs : StaticFs) (m : Method) (rest : String) :
    nginxHandle up serveFile fs m ("/api/" ++ rest) = up "backend:4000" m ("/api/" ++ rest) ∧
    viteDevHandle up devServe m ("/api/" ++ rest) = up "localhost:4000" m ("/api/" ++ rest) := by
  constructor
  · simp [nginxHandle, nginxDecide, locMatch_append, rewriteApi_api_append]
  · simp [viteDevHandle, locMatch_api_dev]

/-- C7: a request whose path matches neither the API prefix nor any
existing static file or directory is answered with the entry document
`/index.html` rather than a raw 404. -/
theorem c7_entry_document_fallback
    (up : String → Method → String → HttpResponse) (serveFile : String → HttpResponse)
    (fs : StaticFs) (m : Method) (p : String)
    (hapi : locMatch "/api/" p = false)
    (hfile : fs.fileExists p = false) (hdir : fs.dirExists p = false) :
    nginxHandle up serveFile fs m p = serveFile "/index.html" := by
  simp [nginxHandle, nginxDecide, hapi, hfile, hdir]

/-- Witness for C7 at a concrete deep-link path on an empty static tree. -/
theorem c7_entry_document_fallback_witness :
    locMatch "/api/" "/dashboard" = false ∧
    emptyFs.fileExists "/dashboard" = false ∧
    emptyFs.dirExists "/dashboard" = false ∧
    nginxHandle stubUp stubServe emptyFs Method.GET "/dashboard" = stubServe "/index.html" :=
  ⟨rfl, rfl, rfl,
    c7_entry_document_fallback stubUp stubServe emptyFs Method.GET "/dashboard" rfl rfl rfl⟩

/-- C8: the API handler mutates no state — it is a constant function of
the request — so any two GET requests to `/api/message` receive
byte-identical payloads, namely the serialization of the fixed Message
Payload. -/
theorem c8_idempotent_bytes (r1 r2 : Request)
    (h1m : r1.method = Method.GET) (h1p : r1.path = "/api/message")
    (h2m : r2.method = Method.GET) (h2p : r2.path = "/api/message") :
    responseBytes r1 = responseBytes r2 ∧
    responseBytes r1 = some "\x7b\"message\":\"Hello from chaicode server\"\x7d" := by
  have e1 : expressApp r1 =
      some { status := 200, contentType := "application/json", body := apiMessageBody } := by
    unfold expressApp
    rw [h1m, h1p]
    rfl
  have e2 : expressApp r2 =
      some { status := 200, contentType := "application/json", body := apiMessageBody } := by
    unfold expressApp
    rw [h2m, h2p]
    rfl
  constructor
  · rw [responseBytes, responseBytes, e1, e2]
  · rw [responseBytes, e1]
    rfl

/-- Witness for C8 at two concrete requests differing in their headers. -/
theorem c8_idempotent_bytes_witness :
    responseBytes { method := Method.GET, path := "/api/message", headers := [] } =
      responseBytes { method := Method.GET, path := "/api/message",
                      headers := [("accept", "application/json")] } ∧
    responseBytes { method := Method.GET, path := "/api/message", headers := [] } =
      some "\x7b\"message\":\"Hello from chaicode server\"\x7d" :=
  c8_idempotent_bytes _ _ rfl rfl rfl rfl

/-- C9: a resolution with a successful status and a parseable JSON body
lacking the `message` field still transitions to Loaded — carrying JS
`undefined` — and not to Failed: the client never validates that the
field is present. -/
theorem c9_loaded_without_message_field (s : Nat) (v : JsVal)
    (hs : resOk s = true) (hv : hasField v "message" = false) :
    displayAfter (FetchOutcome.resolve s (JsonResult.ok v)) = Display.loaded JsVal.undef ∧
    isFailed (displayAfter (FetchOutcome.resolve s (JsonResult.ok v))) = false := by
  have h1 := displayAfter_ok s v hs
  rw [getProp_of_not_hasField v "message" hv] at h1
  refine ⟨h1, ?_⟩
  rw [h1]
  rfl

/-- Witness for C9 at a 200 response whose body is the empty object. -/
theorem c9_loaded_without_message_field_witness :
    resOk 200 = true ∧
    hasField (JsVal.obj []) "message" = false ∧
    displayAfter (FetchOutcome.resolve 200 (JsonResult.ok (JsVal.obj []))) =
      Display.loaded JsVal.undef :=
  ⟨rfl, rfl, (c9_loaded_without_message_field 200 (JsVal.obj []) rfl rfl).1⟩

/-- C10: for every non-success status the Failed description shown by the
client is exactly the prefix "Failed to fetch message: " followed by
"HTTP error! status: " and the numeric status code. -/
theorem c10_http_error_description (s : Nat) (b : JsonResult) (h : resOk s = false) :
    displayAfter (FetchOutcome.resolve s b) =
      Display.failed ("Failed to fetch message: " ++ ("HTTP error! status: " ++ toString s)) :=
  displayAfter_http_error s b h

/-- Witness for C10 at status 500. -/
theorem c10_http_error_description_witness :
    resOk 500 = false ∧
    displayAfter (FetchOutcome.resolve 500 (JsonResult.fail "x")) =
      Display.failed ("Failed to fetch message: " ++ ("HTTP error! status: " ++ toString 500)) :=
  ⟨rfl, c10_http_error_description 500 (JsonResult.fail "x") rfl⟩
